import Mathlib

/-!
Verification of the streaming core of a Go client SDK for a graph-execution
service.  The development embeds, as Lean functions, the SSE-style stream
decoder and transport checks of HttpClient.Stream (src/http/http.go), the
content-type predicate containsTextEventStream (src/http/helper.go), and the
error branch of RunsClient.Stream (src/client, run client).  Channel traffic of
the single producer goroutine is modelled as an explicit, ordered action trace.
-/

namespace LangGraph

/-! ## Model of the gjson field extractor

The decoder calls gjson.Get(line, key) with the plain keys "event", "data" and
"metadata", then reads Result.String() for the event and Result.Raw for data
and metadata.  The model below follows the gjson library semantics for plain
single-name paths: Get scans the input for the first structural character; on
an opening brace it looks up the named top-level key of that object; on an
array, a non-numeric plain key matches nothing; if no structural character
occurs, the result is the zero Result (empty String() and Raw).  Number
formatting of Result.String() keeps the raw digits (gjson reformats only
non-integral raw forms, which no claim exercises), and lone surrogate escapes
map to the replacement character. -/
namespace Gjson

inductive Value where
  | vnull
  | vtrue
  | vfalse
  | vnum (raw : String)
  | vstr (s : String) (raw : String)
  | vjson (raw : String)
deriving Repr, DecidableEq

def hexDigit (c : Char) : Option Nat :=
  if '0' ≤ c ∧ c ≤ '9' then some (c.toNat - '0'.toNat)
  else if 'a' ≤ c ∧ c ≤ 'f' then some (c.toNat - 'a'.toNat + 10)
  else if 'A' ≤ c ∧ c ≤ 'F' then some (c.toNat - 'A'.toNat + 10)
  else none

/-- Parse the body of a JSON string, positioned just after the opening quote.
Returns the unescaped content, the raw consumed text including the closing
quote, and the rest of the input. -/
def parseStrBody (fuel : Nat) (cs : List Char) (accS accR : List Char) :
    Option (String × String × List Char) :=
  match fuel with
  | 0 => none
  | fuel + 1 =>
    match cs with
    | [] => none
    | '"' :: rest => some (String.mk accS.reverse, String.mk (('"' :: accR).reverse), rest)
    | '\\' :: c :: rest =>
      if c = 'u' then
        match rest with
        | h1 :: h2 :: h3 :: h4 :: rest2 =>
          match hexDigit h1, hexDigit h2, hexDigit h3, hexDigit h4 with
          | some a, some b, some c2, some d =>
            let code := ((a * 16 + b) * 16 + c2) * 16 + d
            let ch := if code < 0xd800 ∨ 0xe000 ≤ code then Char.ofNat code else Char.ofNat 0xfffd
            parseStrBody fuel rest2 (ch :: accS) (h4 :: h3 :: h2 :: h1 :: 'u' :: '\\' :: accR)
          | _, _, _, _ => none
        | _ => none
      else
        let ch : Char :=
          match c with
          | 'n' => '\n'
          | 't' => '\t'
          | 'r' => '\r'
          | 'b' => Char.ofNat 8
          | 'f' => Char.ofNat 12
          | other => other
        parseStrBody fuel rest (ch :: accS) (c :: '\\' :: accR)
    | c :: rest => parseStrBody fuel rest (c :: accS) (c :: accR)

/-- Skip a balanced object or array, input positioned at its opening bracket.
Returns the raw consumed text and the rest. -/
def skipStruct (fuel : Nat) (cs : List Char) (depth : Nat) (inStr esc : Bool)
    (acc : List Char) : Option (String × List Char) :=
  match fuel with
  | 0 => none
  | fuel + 1 =>
    match cs with
    | [] => none
    | c :: rest =>
      if inStr then
        if esc then skipStruct fuel rest depth true false (c :: acc)
        else if c = '\\' then skipStruct fuel rest depth true true (c :: acc)
        else if c = '"' then skipStruct fuel rest depth false false (c :: acc)
        else skipStruct fuel rest depth true false (c :: acc)
      else if c = '"' then skipStruct fuel rest depth true false (c :: acc)
      else if c = '{' ∨ c = '[' then skipStruct fuel rest (depth + 1) false false (c :: acc)
      else if c = '}' ∨ c = ']' then
        match depth with
        | 0 => none
        | 1 => some (String.mk ((c :: acc).reverse), rest)
        | d + 1 => skipStruct fuel rest (d + 1) false false (c :: acc)
      else skipStruct fuel rest depth false false (c :: acc)

def isNumDelim (c : Char) : Bool :=
  c = ' ' || c = '\t' || c = '\n' || c = '\r' || c = ',' || c = '}' || c = ']'

def takeNum : List Char → List Char × List Char
  | [] => ([], [])
  | c :: rest =>
    if isNumDelim c then ([], c :: rest)
    else
      let p := takeNum rest
      (c :: p.1, p.2)

def skipWs : List Char → List Char
  | [] => []
  | c :: cs => if c = ' ' ∨ c = '\t' ∨ c = '\n' ∨ c = '\r' then skipWs cs else c :: cs

/-- Parse one JSON value at the head of the input. -/
def parseValue (fuel : Nat) (cs : List Char) : Option (Value × List Char) :=
  match fuel with
  | 0 => none
  | fuel + 1 =>
    match cs with
    | [] => none
    | '"' :: rest =>
      match parseStrBody fuel rest [] [] with
      | some (s, raw, rest2) => some (Value.vstr s ("\"" ++ raw), rest2)
      | none => none
    | 't' :: 'r' :: 'u' :: 'e' :: rest => some (Value.vtrue, rest)
    | 'f' :: 'a' :: 'l' :: 's' :: 'e' :: rest => some (Value.vfalse, rest)
    | 'n' :: 'u' :: 'l' :: 'l' :: rest => some (Value.vnull, rest)
    | c :: rest =>
      if c = '{' ∨ c = '[' then
        match skipStruct fuel (c :: rest) 0 false false [] with
        | some (raw, rest2) => some (Value.vjson raw, rest2)
        | none => none
      else
        match takeNum (c :: rest) with
        | ([], _) => none
        | (xs, r) => some (Value.vnum (String.mk xs), r)

/-- Look up a top-level key of an object, input positioned just after the
opening brace.  Values of other keys are consumed whole, so nested keys never
match, as in gjson for a plain one-segment path. -/
def objectGet (fuel : Nat) (key : String) (cs : List Char) : Option Value :=
  match fuel with
  | 0 => none
  | fuel + 1 =>
    match cs with
    | [] => none
    | '"' :: rest =>
      match parseStrBody fuel rest [] [] with
      | none => none
      | some (k, _, rest1) =>
        match skipWs rest1 with
        | ':' :: rest2 =>
          match parseValue fuel (skipWs rest2) with
          | none => none
          | some (v, rest3) => if k = key then some v else objectGet fuel key rest3
        | _ => none
    | '}' :: _ => none
    | _ :: rest => objectGet fuel key rest

def firstStructural : List Char → Option (Char × List Char)
  | [] => none
  | c :: rest => if c = '{' ∨ c = '[' then some (c, rest) else firstStructural rest

/-- Model of gjson.Get for a plain single-name path: scan to the first
structural character and, for an object, look up the top-level key.  A plain
alphabetic key matches nothing on a top-level array, and the absence of any
structural character yields the zero Result. -/
def get (json path : String) : Option Value :=
  match firstStructural json.toList with
  | some ('{', rest) => objectGet (json.length * 2 + 16) path rest
  | _ => none

/-- Model of Result.String(): empty for a missing result or null, the literal
words for booleans, the unescaped content for strings, and the raw text for
numbers and nested JSON. -/
def valueString : Option Value → String
  | none => ""
  | some Value.vnull => ""
  | some Value.vtrue => "true"
  | some Value.vfalse => "false"
  | some (Value.vnum raw) => raw
  | some (Value.vstr s _) => s
  | some (Value.vjson raw) => raw

/-- Model of Result.Raw: empty for a missing result, otherwise the raw source
text of the value. -/
def valueRaw : Option Value → String
  | none => ""
  | some Value.vnull => "null"
  | some Value.vtrue => "true"
  | some Value.vfalse => "false"
  | some (Value.vnum raw) => raw
  | some (Value.vstr _ raw) => raw
  | some (Value.vjson raw) => raw

end Gjson

/-! ## The stream decoder (goroutine body of HttpClient.Stream) -/

/-- schema.StreamPart: one decoded stream event record. -/
structure StreamPart where
  event : String
  data : String
  metaData : String
deriving Repr, DecidableEq

/-- Accumulator of the decoder loop: the three local string variables. -/
structure Acc where
  event : String
  data : String
  metaData : String
deriving Repr, DecidableEq

def emptyAcc : Acc := ⟨"", "", ""⟩

/-- The three gjson lookups a non-blank line is subjected to: event via
Result.String(), data and metadata via Result.Raw. -/
def lineFields (line : String) : StreamPart :=
  ⟨Gjson.valueString (Gjson.get line "event"),
   Gjson.valueRaw (Gjson.get line "data"),
   Gjson.valueRaw (Gjson.get line "metadata")⟩

/-- One iteration of the scanner loop of HttpClient.Stream: a blank line
flushes the accumulator when event or data is non-empty and then resets it; a
non-blank line overwrites all three fields from gjson lookups on the line,
emits when any field is non-empty, and always resets the fields. -/
def stepLine (acc : Acc) (line : String) : Acc × List StreamPart :=
  if line == "" then
    if acc.event != "" || acc.data != "" then
      (emptyAcc, [⟨acc.event, acc.data, acc.metaData⟩])
    else
      (acc, [])
  else
    if (lineFields line).event != "" || (lineFields line).data != "" ||
        (lineFields line).metaData != "" then
      (emptyAcc, [lineFields line])
    else
      (emptyAcc, [])

/-- The scanner loop over the list of delivered lines. -/
def runDecoder : Acc → List String → List StreamPart
  | _, [] => []
  | acc, line :: rest =>
    (stepLine acc line).2 ++ runDecoder (stepLine acc line).1 rest

/-- All records sent on the event channel for a given line sequence, in send
order.  The loop starts with all three accumulator fields empty. -/
def streamDecode (lines : List String) : List StreamPart :=
  runDecoder emptyAcc lines

/-- Accumulator state after the loop has consumed a list of lines. -/
def accAfter : Acc → List String → Acc
  | acc, [] => acc
  | acc, line :: rest => accAfter (stepLine acc line).1 rest

/-- Per-line emission function: what one line contributes to the output when
the loop reaches it with an empty accumulator.  Blank lines contribute
nothing; a non-blank line contributes one record exactly when one of its three
extracted fields is non-empty. -/
def lineEmit (line : String) : Option StreamPart :=
  if line == "" then none
  else
    if (lineFields line).event != "" || (lineFields line).data != "" ||
        (lineFields line).metaData != "" then
      some (lineFields line)
    else none

/-! ## Channel traffic of the producer goroutine

The goroutine of HttpClient.Stream is the only writer of the event channel and
of the error channel.  Its externally visible behaviour is the ordered trace
of channel operations it performs.  bufio.Scanner delivers the lines that were
read successfully and then stops, either at end of input or at a read error;
the goroutine never consults the scanner error, so the trace is the same in
both cases: the sends of the decoded records followed by the three deferred
actions, run in last-in-first-out order.  Cancellation closes the response
body, which surfaces to the scanner as a read error, so it is covered by the
read-error case with a truncated line list. -/

inductive ChanAction where
  | sendEvent (p : StreamPart)
  | sendErr (e : String)
  | closeErrCh
  | closeEventCh
  | closeBody
deriving Repr, DecidableEq

/-- The full action trace of the goroutine for a given delivered line list and
terminal scanner condition (none = end of input, some e = read error e).  The
source never sends on the error channel and never reads scanner.Err(), so no
sendErr action ever occurs and readErr does not influence the trace. -/
def goroutineTrace (bodyLines : List String) (readErr : Option String) : List ChanAction :=
  (streamDecode bodyLines).map ChanAction.sendEvent
    ++ [ChanAction.closeErrCh, ChanAction.closeEventCh, ChanAction.closeBody]

def sentEvents : List ChanAction → List StreamPart
  | [] => []
  | ChanAction.sendEvent p :: rest => p :: sentEvents rest
  | _ :: rest => sentEvents rest

def sentErrors : List ChanAction → List String
  | [] => []
  | ChanAction.sendErr e :: rest => e :: sentErrors rest
  | _ :: rest => sentErrors rest

def countCloseEventCh : List ChanAction → Nat
  | [] => 0
  | ChanAction.closeEventCh :: rest => countCloseEventCh rest + 1
  | _ :: rest => countCloseEventCh rest

/-! ## Transport checks of HttpClient.Stream -/

/-- containsTextEventStream from src/http/helper.go. -/
def containsTextEventStream (contentType : String) : Bool :=
  contentType == "text/event-stream" ||
    contentType == "text/event-stream; charset=utf-8"

/-- Model of strings.ToUpper on the ASCII range, which covers every HTTP verb
the switch compares against. -/
def asciiUpper (s : String) : String :=
  String.mk (s.toList.map fun c =>
    if 'a' ≤ c ∧ c ≤ 'z' then Char.ofNat (c.toNat - 32) else c)

/-- The method switch of HttpClient.Stream accepts exactly these five verbs
after an upper-case fold; every other method hits the default branch. -/
def supportedMethod (method : String) : Bool :=
  asciiUpper method == "GET" || asciiUpper method == "POST" ||
    asciiUpper method == "PUT" || asciiUpper method == "PATCH" ||
    asciiUpper method == "DELETE"

/-- The response the transport obtained when the request itself succeeded.
bodyText is what io.ReadAll of the raw body returns on the error path;
bodyLines and readErr are the scanner view of the same raw body taken on the
success path. -/
structure Response where
  status : Nat
  contentType : String
  bodyText : String
  bodyLines : List String
  readErr : Option String
deriving Repr, DecidableEq

/-- Outcome of executing the request: a transport failure before any response,
or a response. -/
inductive ReqOutcome where
  | failure (msg : String)
  | success (resp : Response)
deriving Repr, DecidableEq

/-- The distinct failure shapes of HttpClient.Stream before the goroutine is
launched, mirroring the fmt.Errorf sites: the unsupported-method default
branch, a request error, the status-code branch carrying status and full body
text, and the content-type branch carrying the offending content type. -/
inductive StreamSetupError where
  | unsupportedMethod (method : String)
  | requestError (msg : String)
  | httpStatusError (status : Nat) (body : String)
  | unexpectedContentType (contentType : String)
deriving Repr, DecidableEq

/-- A failed setup, together with whether the raw body was closed before
returning (false only when no response body exists yet). -/
structure SetupFailure where
  err : StreamSetupError
  bodyClosed : Bool
deriving Repr, DecidableEq

/-- HttpClient.Stream from src/http/http.go: the method switch, the request
execution, the status-code check (read full body, close, fail), the
content-type check (close, fail), and on success the goroutine whose channel
traffic is goroutineTrace.  An error result means no channels are returned to
the caller. -/
def httpStream (method : String) (outcome : ReqOutcome) :
    Except SetupFailure (List ChanAction) :=
  if !supportedMethod method then
    Except.error ⟨StreamSetupError.unsupportedMethod method, false⟩
  else
    match outcome with
    | ReqOutcome.failure msg => Except.error ⟨StreamSetupError.requestError msg, false⟩
    | ReqOutcome.success resp =>
      if resp.status ≥ 400 then
        Except.error ⟨StreamSetupError.httpStatusError resp.status resp.bodyText, true⟩
      else if resp.contentType == "" || !containsTextEventStream resp.contentType then
        Except.error ⟨StreamSetupError.unexpectedContentType resp.contentType, true⟩
      else
        Except.ok (goroutineTrace resp.bodyLines resp.readErr)

/-! ## The error branch of RunsClient.Stream

On any HttpClient.Stream failure the three return values are nil, nil, err.
RunsClient.Stream then runs cancel() and executes a send of err on the
returned error channel, which is nil; by the Go language specification a send
on a nil channel blocks forever, so the call never reaches the subsequent
close or return statements. -/

inductive RunsStreamOutcome where
  | returns (events : List StreamPart)
  | blockedForever
deriving Repr, DecidableEq

/-- The error-handling tail of RunsClient.Stream (src/client run client),
applied to the result of HttpClient.Stream. -/
def runsClientStream (setup : Except SetupFailure (List ChanAction)) : RunsStreamOutcome :=
  match setup with
  | Except.error _ => RunsStreamOutcome.blockedForever
  | Except.ok trace => RunsStreamOutcome.returns (sentEvents trace)

/-! ## Helper lemmas about the decoder loop -/

theorem lineEmit_blank : lineEmit "" = none := rfl

theorem stepLine_blank_empty : stepLine emptyAcc "" = (emptyAcc, []) := rfl

theorem stepLine_nonblank (acc : Acc) (line : String) (h : (line == "") = false) :
    stepLine acc line = (emptyAcc, (lineEmit line).toList) := by
  simp only [stepLine, lineEmit, h, Bool.false_eq_true, if_false]
  split <;> rfl

theorem runDecoder_empty_eq (lines : List String) :
    runDecoder emptyAcc lines = lines.filterMap lineEmit := by
  induction lines with
  | nil => rfl
  | cons line rest ih =>
    by_cases h : line = ""
    · subst h
      simpa [runDecoder, stepLine_blank_empty, lineEmit_blank] using ih
    · have hb : (line == "") = false := beq_eq_false_iff_ne.mpr h
      have h1 := stepLine_nonblank emptyAcc line hb
      simp only [runDecoder, h1, List.filterMap_cons, ih]
      cases lineEmit line <;> simp

theorem streamDecode_eq_filterMap (lines : List String) :
    streamDecode lines = lines.filterMap lineEmit :=
  runDecoder_empty_eq lines

theorem accAfter_empty (lines : List String) : accAfter emptyAcc lines = emptyAcc := by
  induction lines with
  | nil => rfl
  | cons line rest ih =>
    by_cases h : line = ""
    · subst h
      simpa [accAfter, stepLine_blank_empty] using ih
    · have hb : (line == "") = false := beq_eq_false_iff_ne.mpr h
      simpa [accAfter, stepLine_nonblank emptyAcc line hb] using ih

theorem lineEmit_nonEmpty (line : String) (p : StreamPart) (h : lineEmit line = some p) :
    p.event ≠ "" ∨ p.data ≠ "" ∨ p.metaData ≠ "" := by
  unfold lineEmit at h
  split at h
  · exact absurd h (by simp)
  · split at h
    · rename_i hc
      cases h
      simpa [bne_iff_ne, or_assoc] using hc
    · exact absurd h (by simp)

/-! ## Helper lemmas about the goroutine trace -/

theorem sentEvents_map_append (l : List StreamPart) (t : List ChanAction) :
    sentEvents (l.map ChanAction.sendEvent ++ t) = l ++ sentEvents t := by
  induction l with
  | nil => rfl
  | cons p ps ih => simp [sentEvents, ih]

theorem countCloseEventCh_map_append (l : List StreamPart) :
    countCloseEventCh (l.map ChanAction.sendEvent ++
      [ChanAction.closeErrCh, ChanAction.closeEventCh, ChanAction.closeBody]) = 1 := by
  induction l with
  | nil => rfl
  | cons p ps ih => simpa [countCloseEventCh] using ih

theorem sentErrors_map_append (l : List StreamPart) :
    sentErrors (l.map ChanAction.sendEvent ++
      [ChanAction.closeErrCh, ChanAction.closeEventCh, ChanAction.closeBody]) = [] := by
  induction l with
  | nil => rfl
  | cons p ps ih => simpa [sentErrors] using ih

theorem goroutineTrace_sentEvents (lines : List String) (readErr : Option String) :
    sentEvents (goroutineTrace lines readErr) = streamDecode lines := by
  unfold goroutineTrace
  rw [sentEvents_map_append]
  simp [sentErrors, sentEvents]

theorem httpStream_ok (method : String) (outcome : ReqOutcome) (trace : List ChanAction)
    (h : httpStream method outcome = Except.ok trace) :
    ∃ resp, outcome = ReqOutcome.success resp ∧
      trace = goroutineTrace resp.bodyLines resp.readErr := by
  unfold httpStream at h
  split at h
  · exact absurd h (by simp)
  · cases outcome with
    | failure msg => exact absurd h (by simp)
    | success resp =>
      simp only at h
      split at h
      · exact absurd h (by simp)
      · split at h
        · exact absurd h (by simp)
        · exact ⟨resp, rfl, (Except.ok.inj h).symm⟩

theorem httpStream_badContentType (method : String) (resp : Response)
    (hm : supportedMethod method = true) (hs : resp.status < 400)
    (hct : containsTextEventStream resp.contentType = false) :
    httpStream method (ReqOutcome.success resp) =
      Except.error ⟨StreamSetupError.unexpectedContentType resp.contentType, true⟩ := by
  simp [httpStream, hm, hct, Nat.not_le.mpr hs]

/-! ## The claims -/

/-- Claim C1: for every input line sequence consumed by the decoder in
HttpClient.Stream, the emitted output is exactly the per-frame filterMap of
lineEmit — a frame yields a record precisely when one of its extracted fields
event, data, metadata is non-empty, and an entirely blank frame yields none —
and every emitted record has at least one non-empty field. -/
theorem C1_emission_iff_nonempty_field (lines : List String) :
    streamDecode lines = lines.filterMap lineEmit ∧
    ∀ p ∈ streamDecode lines, p.event ≠ "" ∨ p.data ≠ "" ∨ p.metaData ≠ "" := by
  refine ⟨streamDecode_eq_filterMap lines, ?_⟩
  intro p hp
  rw [streamDecode_eq_filterMap] at hp
  rcases List.mem_filterMap.mp hp with ⟨l, -, hl⟩
  exact lineEmit_nonEmpty l p hl

/-- Witness for C1: the record decoded from a one-line input has a non-empty
field. -/
theorem C1_emission_iff_nonempty_field_witness :
    (⟨"values", "", ""⟩ : StreamPart).event ≠ "" ∨
      (⟨"values", "", ""⟩ : StreamPart).data ≠ "" ∨
      (⟨"values", "", ""⟩ : StreamPart).metaData ≠ "" :=
  (C1_emission_iff_nonempty_field ["\x7b\"event\":\"values\"\x7d"]).2
    ⟨"values", "", ""⟩ (by decide)

/-- Claim C2, evaluating the code at the failing input: on the line sequence
of the spec scenario the decoder emits no records at all.  Each non-blank line
is handed to gjson, which extracts a top-level JSON key from the first JSON
object found on the line; the SSE-style lines of the scenario contain no such
keys, so the claimed two records never appear and the channel closes after
zero sends. -/
theorem C2_sse_scenario_emits_nothing :
    streamDecode ["event: values", "data: \x7b\"a\":1\x7d", "", "event: end", ""] = [] := by
  decide

/-- Claim C3, evaluating the code at the failing input: with one decodable line
delivered before a mid-stream read error, the goroutine sends exactly the one
record decoded before the error and closes the channels, but no value is ever
sent on the error channel — the scanner error is never consulted, so the read
failure is silently swallowed rather than exposed. -/
theorem C3_read_error_never_reported :
    sentEvents (goroutineTrace ["\x7b\"event\":\"values\"\x7d"] (some "connection reset")) =
      [⟨"values", "", ""⟩] ∧
    sentErrors (goroutineTrace ["\x7b\"event\":\"values\"\x7d"] (some "connection reset")) = [] ∧
    countCloseEventCh
      (goroutineTrace ["\x7b\"event\":\"values\"\x7d"] (some "connection reset")) = 1 := by
  decide

/-- Claim C4, evaluating the code at the failing input: when HttpClient.Stream
fails during setup it returns a nil error channel, and the send of the setup
error in RunsClient.Stream is a send on a nil channel, which blocks forever —
the call neither returns nor delivers the error. -/
theorem C4_setup_failure_blocks_forever :
    runsClientStream
        (Except.error ⟨StreamSetupError.httpStatusError 500 "internal error", true⟩) =
      RunsStreamOutcome.blockedForever := rfl

/-- Claim C5: for every supported method and every response with status code
at least 400, HttpClient.Stream reads the full error body, closes the
connection, and fails with the status error carrying the exact status code and
body text; the result is an error, so no event channel is returned. -/
theorem C5_status_error_path (method : String) (resp : Response)
    (hm : supportedMethod method = true) (hs : 400 ≤ resp.status) :
    httpStream method (ReqOutcome.success resp) =
      Except.error ⟨StreamSetupError.httpStatusError resp.status resp.bodyText, true⟩ := by
  simp [httpStream, hm, hs]

/-- Witness for C5 at a concrete 404 response. -/
theorem C5_status_error_path_witness :
    httpStream "POST" (ReqOutcome.success ⟨404, "text/plain", "not found", [], none⟩) =
      Except.error ⟨StreamSetupError.httpStatusError 404 "not found", true⟩ :=
  C5_status_error_path "POST" ⟨404, "text/plain", "not found", [], none⟩
    (by decide) (by decide)

/-- Claim C6: for every supported method and every sub-400 response whose
content type the predicate containsTextEventStream does not accept (a missing
header is the empty string, which it never accepts), HttpClient.Stream closes
the connection and fails with the unexpected-content-type error; no event
channel is created. -/
theorem C6_content_type_rejected (method : String) (resp : Response)
    (hm : supportedMethod method = true) (hs : resp.status < 400)
    (hct : containsTextEventStream resp.contentType = false) :
    httpStream method (ReqOutcome.success resp) =
      Except.error ⟨StreamSetupError.unexpectedContentType resp.contentType, true⟩ :=
  httpStream_badContentType method resp hm hs hct

/-- Witness for C6 at a concrete 200 response with a JSON content type. -/
theorem C6_content_type_rejected_witness :
    httpStream "GET" (ReqOutcome.success ⟨200, "application/json", "", [], none⟩) =
      Except.error ⟨StreamSetupError.unexpectedContentType "application/json", true⟩ :=
  C6_content_type_rejected "GET" ⟨200, "application/json", "", [], none⟩
    (by decide) (by decide) (by decide)

/-- Claim C7: the decoder is a filterMap over the input lines, so emitted
records appear in exactly the order of their defining frames, and the output
of a concatenation is the concatenation of the outputs — no reordering, no
dropping of an already emitted record, no emission out of input order. -/
theorem C7_order_preserved (lines xs ys : List String) :
    streamDecode lines = lines.filterMap lineEmit ∧
    streamDecode (xs ++ ys) = streamDecode xs ++ streamDecode ys := by
  refine ⟨streamDecode_eq_filterMap lines, ?_⟩
  rw [streamDecode_eq_filterMap, streamDecode_eq_filterMap, streamDecode_eq_filterMap,
    List.filterMap_append]

/-- Claim C8: whenever HttpClient.Stream successfully opens a stream, the
goroutine trace contains exactly one close of the event channel, and the trace
is the event sends followed by the deferred closes — so on every termination
path of an opened stream (end of input, read error, cancellation observed as a
truncated read) the event channel is eventually closed, exactly once. -/
theorem C8_event_channel_closed_exactly_once (method : String) (outcome : ReqOutcome)
    (trace : List ChanAction) (h : httpStream method outcome = Except.ok trace) :
    countCloseEventCh trace = 1 ∧
    trace = (sentEvents trace).map ChanAction.sendEvent ++
      [ChanAction.closeErrCh, ChanAction.closeEventCh, ChanAction.closeBody] := by
  obtain ⟨resp, -, htr⟩ := httpStream_ok method outcome trace h
  subst htr
  refine ⟨countCloseEventCh_map_append _, ?_⟩
  rw [goroutineTrace_sentEvents]
  rfl

/-- Witness for C8 at a concrete opened stream with an empty body. -/
theorem C8_event_channel_closed_exactly_once_witness :
    countCloseEventCh
        [ChanAction.closeErrCh, ChanAction.closeEventCh, ChanAction.closeBody] = 1 ∧
    [ChanAction.closeErrCh, ChanAction.closeEventCh, ChanAction.closeBody] =
      (sentEvents [ChanAction.closeErrCh, ChanAction.closeEventCh,
          ChanAction.closeBody]).map ChanAction.sendEvent ++
        [ChanAction.closeErrCh, ChanAction.closeEventCh, ChanAction.closeBody] :=
  C8_event_channel_closed_exactly_once "GET"
    (ReqOutcome.success ⟨200, "text/event-stream", "", [], none⟩) _ (by rfl)

/-- Claim C9: after processing any non-blank line the accumulator is reset to
all-empty whether or not a record was emitted; consequently the accumulator is
all-empty after any prefix of the input, the blank-line branch reached with
the all-empty accumulator emits nothing, and the whole output arises from the
non-blank branch as a per-line filterMap in which blank lines contribute
nothing. -/
theorem C9_accumulator_always_reset :
    (∀ acc line, line ≠ "" → (stepLine acc line).1 = emptyAcc) ∧
    (∀ lines, accAfter emptyAcc lines = emptyAcc) ∧
    stepLine emptyAcc "" = (emptyAcc, []) ∧
    (∀ lines, streamDecode lines = lines.filterMap lineEmit) := by
  refine ⟨?_, accAfter_empty, stepLine_blank_empty, streamDecode_eq_filterMap⟩
  intro acc line h
  rw [stepLine_nonblank acc line (beq_eq_false_iff_ne.mpr h)]

/-- Witness for C9 at a concrete non-blank line. -/
theorem C9_accumulator_always_reset_witness :
    (stepLine emptyAcc "x").1 = emptyAcc :=
  C9_accumulator_always_reset.1 emptyAcc "x" (by decide)

/-- Claim C10: containsTextEventStream accepts exactly the two strings of the
source, returns false on everything else — including the no-space parameter
variant — and HttpClient.Stream rejects every sub-400 response whose content
type it does not accept. -/
theorem C10_content_type_exact_strings :
    (∀ ct, containsTextEventStream ct = true ↔
      ct = "text/event-stream" ∨ ct = "text/event-stream; charset=utf-8") ∧
    containsTextEventStream "text/event-stream;charset=utf-8" = false ∧
    (∀ method resp, supportedMethod method = true → resp.status < 400 →
      containsTextEventStream resp.contentType = false →
      httpStream method (ReqOutcome.success resp) =
        Except.error ⟨StreamSetupError.unexpectedContentType resp.contentType, true⟩) := by
  refine ⟨?_, by decide, fun method resp hm hs hct =>
    httpStream_badContentType method resp hm hs hct⟩
  intro ct
  simp [containsTextEventStream]

/-- Witness for C10: a JSON content type on a 200 response is rejected. -/
theorem C10_content_type_exact_strings_witness :
    httpStream "POST" (ReqOutcome.success ⟨200, "application/json", "ok", [], none⟩) =
      Except.error ⟨StreamSetupError.unexpectedContentType "application/json", true⟩ :=
  C10_content_type_exact_strings.2.2 "POST" ⟨200, "application/json", "ok", [], none⟩
    (by decide) (by decide) (by decide)

end LangGraph
